import Mathlib

/-
Shallow embedding of the call-history normalization pipeline.

Modelling conventions:
- Instants are integers. Raw upstream fields (created_at, start_time,
  end_time) are Unix epoch seconds; resolved instants (the ISO strings the
  code builds with new Date(seconds * 1000).toISOString()) are epoch
  milliseconds, so resolving a raw second value multiplies by 1000.
- JavaScript truthiness on optional numbers (cond ? a : b, x || y) is
  explicit: an optional number is truthy when present and nonzero; an
  optional string is truthy when present and nonempty. A resolved ISO
  string is always a nonempty string, hence always truthy.
- The ambient wall clock (new Date()) is passed in as an explicit
  parameter so the normalizer stays a pure function.
- The API route handler is modelled as a pure function of the request
  method, the three environment credentials, and the outcome of the
  single upstream fetch; res.status(..).json(..) becomes a returned
  status/body pair, and thrown errors reaching the catch block become an
  explicit outcome constructor.
-/

set_option autoImplicit false

namespace CallHistory

/-- One egress (recording) attempt record from the upstream analytics API,
mirroring the LivekitEgressInfo interface field for field. -/
structure LivekitEgressInfo where
  egress_id : String
  room_id : String
  room_name : String
  status : String
  started_at : Option Int := Option.none
  ended_at : Option Int := Option.none
  error : Option String := Option.none
deriving Repr, DecidableEq

/-- One raw upstream session record, mirroring the LivekitSession
interface field for field (timestamps in epoch seconds). -/
structure LivekitSession where
  session_id : String
  name : String
  created_at : Int
  last_active : Option Int := Option.none
  start_time : Option Int := Option.none
  end_time : Option Int := Option.none
  duration : Option Int := Option.none
  num_participants : Option Int := Option.none
  num_active_participants : Option Int := Option.none
  egress_info : Option (List LivekitEgressInfo) := Option.none
deriving Repr, DecidableEq

/-- The four canonical recording states of CallSession.recordingStatus. -/
inductive RecordingStatus where
  | available
  | processing
  | none
  | failed
deriving Repr, DecidableEq

/-- JavaScript truthiness of an optional number: present and nonzero. -/
def truthyNum : Option Int → Bool
  | Option.none => false
  | Option.some n => n != 0

/-- JavaScript truthiness of an optional string: present and nonempty. -/
def truthyStr : Option String → Bool
  | Option.none => false
  | Option.some s => s != ""

/-- The formatDuration helper. Start and end instants are epoch
milliseconds (the code parses the ISO strings back with getTime, which
yields exactly these millisecond values); an absent end is Option.none. -/
def formatDuration (startMs : Int) (endMs : Option Int) : String :=
  match endMs with
  | Option.none => "Ongoing"
  | Option.some e =>
    let diffMs := e - startMs
    if diffMs ≤ 0 then "0m"
    else
      let hours := diffMs / (1000 * 60 * 60)
      let diffMsRemaining := diffMs - hours * (1000 * 60 * 60)
      let minutes := diffMsRemaining / (1000 * 60)
      if hours > 0 then
        toString hours ++ "h " ++ toString minutes ++ "m"
      else
        toString minutes ++ "m"

/-- The deriveRecordingStatus helper: when egress_info is present and
nonempty, classify the status string of its last element; otherwise none.
Indexing egress_info at length - 1 is the last element, i.e. getLast?. -/
def deriveRecordingStatus (session : LivekitSession) : RecordingStatus :=
  match session.egress_info with
  | Option.some infos =>
    match infos.getLast? with
    | Option.some latestEgress =>
      match latestEgress.status with
      | "EGRESS_COMPLETE" => RecordingStatus.available
      | "EGRESS_STARTING" => RecordingStatus.processing
      | "EGRESS_ACTIVE" => RecordingStatus.processing
      | "EGRESS_ENDING" => RecordingStatus.processing
      | "EGRESS_FAILED" => RecordingStatus.failed
      | "EGRESS_ABORTED" => RecordingStatus.failed
      | "EGRESS_LIMIT_REACHED" => RecordingStatus.failed
      | _ => RecordingStatus.none
    | Option.none => RecordingStatus.none
  | Option.none => RecordingStatus.none

/-- The CallSession view model produced by the normalization map; the
startTime and endTime ISO strings are modelled as the epoch-millisecond
instants they denote. -/
structure CallSession where
  id : String
  roomName : String
  startTime : Int
  endTime : Int
  duration : String
  participantCount : Int
  recordingStatus : RecordingStatus
deriving Repr, DecidableEq

/-- The per-record body of the data.map normalization inside
fetchSessions. The parameter now is the instant new Date() would produce.
session.start_time and session.end_time are tested by JavaScript
truthiness, so a present 0 falls through to the fallback; the resolved
endTimeIso string, when defined, is nonempty and hence truthy in
endTimeIso || new Date().toISOString(). -/
def normalizeSession (now : Int) (session : LivekitSession) : CallSession :=
  let startTimeIso : Int :=
    if truthyNum session.start_time then session.start_time.getD 0 * 1000
    else session.created_at * 1000
  let endTimeIso : Option Int :=
    if truthyNum session.end_time then Option.some (session.end_time.getD 0 * 1000)
    else Option.none
  { id := session.session_id
    roomName := session.name
    startTime := startTimeIso
    endTime := endTimeIso.getD now
    duration := formatDuration startTimeIso endTimeIso
    participantCount := if truthyNum session.num_participants then session.num_participants.getD 0 else 0
    recordingStatus := deriveRecordingStatus session }

/-- The whole data.map call: normalize each fetched record in order. -/
def processSessions (now : Int) (data : List LivekitSession) : List CallSession :=
  data.map (fun session => normalizeSession now session)

/-- The decoded shape of a successful upstream response body. -/
structure SessionsApiResponse where
  sessions : List LivekitSession
  next_page_token : Option String := Option.none
deriving Repr, DecidableEq

/-- A response body sent by the API route: either the decoded upstream
payload (the 200 path) or the error object with its optional details. -/
inductive HandlerBody where
  | sessions (data : SessionsApiResponse)
  | apiError (error : String) (details : Option String)
deriving Repr, DecidableEq

/-- A completed res.status(code).json(body) pair. -/
structure HandlerResponse where
  status : Nat
  body : HandlerBody
deriving Repr, DecidableEq

/-- Outcome of the body of the try block up to and including JSON
decoding: either an upstream HTTP response arrived (with its status code
and the result of decoding its body, consulted only on the ok path), or
an exception was thrown before a response existed (token minting or
network transport), carrying the message the catch block extracts. -/
inductive FetchOutcome where
  | response (status : Nat) (decoded : Except String SessionsApiResponse)
  | thrown (message : String)

/-- The WHATWG fetch Response.ok predicate: status in the range 200-299. -/
def is2xx (status : Nat) : Bool :=
  200 ≤ status && status ≤ 299

/-- The API route handler of pages/api/livekit/sessions, as the pure
function request method x credentials x upstream outcome to response.
Branches in source order: non-GET method, missing credentials (note: no
details field), thrown error (catch: 500 with the message as details),
non-ok upstream status (status || 502 with details), decode failure
(throws, so catch: 500 with details), success (200 with the payload). -/
def sessionsHandler (method : String) (apiKey apiSecret projectId : Option String)
    (upstream : FetchOutcome) : HandlerResponse :=
  if method ≠ "GET" then
    { status := 405
      body := HandlerBody.apiError ("Method " ++ method ++ " Not Allowed") Option.none }
  else if !truthyStr apiKey || !truthyStr apiSecret || !truthyStr projectId then
    { status := 500
      body := HandlerBody.apiError "Server configuration error: Missing LiveKit credentials." Option.none }
  else
    match upstream with
    | FetchOutcome.thrown message =>
      { status := 500
        body := HandlerBody.apiError "Internal server error." (Option.some message) }
    | FetchOutcome.response status decoded =>
      if !is2xx status then
        { status := if status ≠ 0 then status else 502
          body := HandlerBody.apiError "Failed to fetch sessions from LiveKit."
            (Option.some ("LiveKit API responded with status " ++ toString status
              ++ ". Check server logs for more details.")) }
      else
        match decoded with
        | Except.error message =>
          { status := 500
            body := HandlerBody.apiError "Internal server error." (Option.some message) }
        | Except.ok data =>
          { status := 200, body := HandlerBody.sessions data }

/-- A sample egress attempt with a given status, for concrete witnesses. -/
def sampleEgress (st : String) : LivekitEgressInfo :=
  { egress_id := "eg", room_id := "rid", room_name := "room", status := st }

/-- A sample session with a given egress history, for concrete witnesses. -/
def sampleSession (hist : Option (List LivekitEgressInfo)) : LivekitSession :=
  { session_id := "sid", name := "room", created_at := 1000, egress_info := hist }

/-- A sample session whose start_time and end_time are both present but
equal to 0, for the zero-is-falsy witness. -/
def sampleZeroTimes : LivekitSession :=
  { session_id := "sid", name := "room", created_at := 1000,
    start_time := Option.some 0, end_time := Option.some 0 }

/-- Analysis predicate: the body is the error object, i.e. the response
came from one of the failure paths of the handler. -/
def isFailureBody : HandlerBody → Bool
  | HandlerBody.apiError _ _ => true
  | HandlerBody.sessions _ => false

/-- Analysis predicate: the body is an error object carrying a details
string. -/
def hasDetails : HandlerBody → Bool
  | HandlerBody.apiError _ (Option.some _) => true
  | _ => false

/-- A benign upstream outcome (HTTP 200 with an empty decoded payload),
used to exercise handler branches that never consult the upstream. -/
def emptyOkOutcome : FetchOutcome :=
  FetchOutcome.response 200 (Except.ok { sessions := [] })

/-- Claim C1: for every egress history whose last element has status
EGRESS_COMPLETE the resolver returns available, regardless of the earlier
entries; a last status among EGRESS_STARTING, EGRESS_ACTIVE, EGRESS_ENDING
yields processing, and one among EGRESS_FAILED, EGRESS_ABORTED,
EGRESS_LIMIT_REACHED yields failed. -/
theorem C1_tail_status_determines_result (s : LivekitSession)
    (earlier : List LivekitEgressInfo) (latest : LivekitEgressInfo)
    (h : s.egress_info = Option.some (earlier ++ [latest])) :
    (latest.status = "EGRESS_COMPLETE" →
      deriveRecordingStatus s = RecordingStatus.available)
    ∧ (latest.status = "EGRESS_STARTING" ∨ latest.status = "EGRESS_ACTIVE"
        ∨ latest.status = "EGRESS_ENDING" →
      deriveRecordingStatus s = RecordingStatus.processing)
    ∧ (latest.status = "EGRESS_FAILED" ∨ latest.status = "EGRESS_ABORTED"
        ∨ latest.status = "EGRESS_LIMIT_REACHED" →
      deriveRecordingStatus s = RecordingStatus.failed) := by
  unfold deriveRecordingStatus
  rw [h]
  simp only [List.getLast?_concat]
  refine ⟨fun hst => ?_, fun hst => ?_, fun hst => ?_⟩
  · rw [hst]
    rfl
  · rcases hst with hst | hst | hst <;> rw [hst] <;> rfl
  · rcases hst with hst | hst | hst <;> rw [hst] <;> rfl

/-- Claim C1, concrete instance: a history whose earlier entry failed but
whose last entry is EGRESS_COMPLETE resolves to available. -/
theorem C1_witness :
    deriveRecordingStatus
      (sampleSession (Option.some
        [sampleEgress "EGRESS_FAILED", sampleEgress "EGRESS_COMPLETE"]))
      = RecordingStatus.available :=
  (C1_tail_status_determines_result _
    [sampleEgress "EGRESS_FAILED"] (sampleEgress "EGRESS_COMPLETE") rfl).1 rfl

/-- Claim C7: an absent or empty egress history resolves to none, and a
nonempty history whose last status is outside the seven recognized codes
also resolves to none. -/
theorem C7_none_default :
    (∀ s : LivekitSession, s.egress_info = Option.none →
      deriveRecordingStatus s = RecordingStatus.none)
    ∧ (∀ s : LivekitSession, s.egress_info = Option.some [] →
      deriveRecordingStatus s = RecordingStatus.none)
    ∧ (∀ (s : LivekitSession) (earlier : List LivekitEgressInfo)
        (latest : LivekitEgressInfo),
      s.egress_info = Option.some (earlier ++ [latest]) →
      latest.status ∉ (["EGRESS_COMPLETE", "EGRESS_STARTING", "EGRESS_ACTIVE",
        "EGRESS_ENDING", "EGRESS_FAILED", "EGRESS_ABORTED",
        "EGRESS_LIMIT_REACHED"] : List String) →
      deriveRecordingStatus s = RecordingStatus.none) := by
  refine ⟨fun s h => ?_, fun s h => ?_, fun s earlier latest h hst => ?_⟩
  · unfold deriveRecordingStatus
    rw [h]
  · unfold deriveRecordingStatus
    rw [h]
    rfl
  · unfold deriveRecordingStatus
    rw [h]
    simp only [List.getLast?_concat]
    simp only [List.mem_cons, List.not_mem_nil, or_false, not_or] at hst
    obtain ⟨h1, h2, h3, h4, h5, h6, h7⟩ := hst
    split <;> simp_all

/-- Claim C7, concrete instance: a history ending in an unrecognized
status code resolves to none. -/
theorem C7_witness :
    deriveRecordingStatus
      (sampleSession (Option.some [sampleEgress "EGRESS_FUTURE_CODE"]))
      = RecordingStatus.none :=
  C7_none_default.2.2 _ [] (sampleEgress "EGRESS_FUTURE_CODE") rfl (by decide)

/-- Claim C9: the resolved recording status depends only on the last
element of the egress history; two sessions whose nonempty histories share
the same last element resolve identically, whatever the earlier entries. -/
theorem C9_depends_only_on_tail (s₁ s₂ : LivekitSession)
    (earlier₁ earlier₂ : List LivekitEgressInfo) (latest : LivekitEgressInfo)
    (h₁ : s₁.egress_info = Option.some (earlier₁ ++ [latest]))
    (h₂ : s₂.egress_info = Option.some (earlier₂ ++ [latest])) :
    deriveRecordingStatus s₁ = deriveRecordingStatus s₂ := by
  unfold deriveRecordingStatus
  rw [h₁, h₂]
  simp only [List.getLast?_concat]

/-- Claim C9, concrete instance: two histories with different earlier
entries but the same last element resolve identically. -/
theorem C9_witness :
    deriveRecordingStatus
      (sampleSession (Option.some
        [sampleEgress "EGRESS_FAILED", sampleEgress "EGRESS_ACTIVE"]))
    = deriveRecordingStatus
      (sampleSession (Option.some [sampleEgress "EGRESS_ACTIVE"])) :=
  C9_depends_only_on_tail _ _
    [sampleEgress "EGRESS_FAILED"] [] (sampleEgress "EGRESS_ACTIVE") rfl rfl

/-- Claim C5: the formatter returns the literal Ongoing whenever the end
instant is absent, and returns 0m whenever the end instant is present and
the elapsed time from start to end is nonpositive, including an end equal
to the start. -/
theorem C5_ongoing_and_degenerate :
    (∀ startMs : Int, formatDuration startMs Option.none = "Ongoing")
    ∧ (∀ startMs endMs : Int, endMs - startMs ≤ 0 →
      formatDuration startMs (Option.some endMs) = "0m") := by
  constructor
  · intro startMs
    rfl
  · intro startMs endMs h
    unfold formatDuration
    simp only [if_pos h]

/-- Claim C5, concrete instances: absent end gives Ongoing; end equal to
start gives 0m; end strictly before start gives 0m. -/
theorem C5_witness :
    formatDuration 0 Option.none = "Ongoing"
    ∧ formatDuration 1000 (Option.some 1000) = "0m"
    ∧ formatDuration 5000 (Option.some 2000) = "0m" :=
  ⟨C5_ongoing_and_degenerate.1 0,
   C5_ongoing_and_degenerate.2 1000 1000 (by decide),
   C5_ongoing_and_degenerate.2 5000 2000 (by decide)⟩

/-- Claim C6: for positive elapsed time the formatter emits the whole
hours and the whole remaining minutes of the elapsed time, omitting the
hour component exactly when it is zero; in particular 5 minutes gives 5m,
65 minutes gives 1h 5m, and exactly 2 hours gives 2h 0m. The whole hours
and minutes are computed from the elapsed whole minutes as quotient and
remainder by 60. -/
theorem C6_positive_elapsed_format :
    (∀ startMs endMs : Int, 0 < endMs - startMs →
      formatDuration startMs (Option.some endMs) =
        (if (endMs - startMs) / 60000 / 60 = 0 then ""
         else toString ((endMs - startMs) / 60000 / 60) ++ "h ")
        ++ toString ((endMs - startMs) / 60000 % 60) ++ "m")
    ∧ formatDuration 0 (Option.some 300000) = "5m"
    ∧ formatDuration 0 (Option.some 3900000) = "1h 5m"
    ∧ formatDuration 0 (Option.some 7200000) = "2h 0m" := by
  refine ⟨?_, rfl, rfl, rfl⟩
  intro startMs endMs hpos
  simp only [formatDuration]
  rw [if_neg (show ¬(endMs - startMs ≤ 0) by omega)]
  have e1 : (1000 * 60 * 60 : Int) = 3600000 := by norm_num
  have e2 : (1000 * 60 : Int) = 60000 := by norm_num
  rw [e1, e2]
  have hmin : (endMs - startMs - (endMs - startMs) / 3600000 * 3600000) / 60000
      = (endMs - startMs) / 60000 % 60 := by
    omega
  have hhours : (endMs - startMs) / 3600000 = (endMs - startMs) / 60000 / 60 := by
    omega
  rw [hmin, hhours]
  by_cases hz : (endMs - startMs) / 60000 / 60 = 0
  · rw [if_pos hz, if_neg (show ¬(endMs - startMs) / 60000 / 60 > 0 by omega)]
    rfl
  · rw [if_neg hz, if_pos (show (endMs - startMs) / 60000 / 60 > 0 by omega)]

/-- Claim C6, concrete instance: 65 minutes of elapsed time formats as
1h 5m, derived from the general positive-elapsed format law. -/
theorem C6_witness :
    formatDuration 100 (Option.some 3900100) =
      (if (3900100 - 100 : Int) / 60000 / 60 = 0 then ""
       else toString ((3900100 - 100 : Int) / 60000 / 60) ++ "h ")
      ++ toString ((3900100 - 100 : Int) / 60000 % 60) ++ "m" :=
  C6_positive_elapsed_format.1 100 3900100 (by decide)

/-- Claim C2: on a well-typed raw session whose start_time, end_time and
num_participants are all absent, normalization is total by construction
and yields the instant of created_at (epoch seconds, so created_at * 1000
in milliseconds) as resolved start, the duration string Ongoing for every
value of the ambient clock (so the formatter saw the absent end, not the
substituted current instant), and participant count 0. -/
theorem C2_absent_optionals_defaults (now : Int) (s : LivekitSession)
    (h1 : s.start_time = Option.none) (h2 : s.end_time = Option.none)
    (h3 : s.num_participants = Option.none) :
    (normalizeSession now s).startTime = s.created_at * 1000
    ∧ (normalizeSession now s).duration = "Ongoing"
    ∧ (normalizeSession now s).participantCount = 0 := by
  refine ⟨?_, ?_, ?_⟩ <;>
    simp [normalizeSession, h1, h2, h3, truthyNum, formatDuration]

/-- Claim C2, concrete instance: the spec example with created_at = 1000
seconds and no start_time, end_time or num_participants, at an arbitrary
concrete clock value. -/
theorem C2_witness :
    (normalizeSession 987654 (sampleSession Option.none)).startTime = 1000 * 1000
    ∧ (normalizeSession 987654 (sampleSession Option.none)).duration = "Ongoing"
    ∧ (normalizeSession 987654 (sampleSession Option.none)).participantCount = 0 :=
  C2_absent_optionals_defaults 987654 (sampleSession Option.none) rfl rfl rfl

/-- Claim C8: the fetched sequence is normalized element-wise; the output
has the same length as the input and the element at every index is the
normalization of the input element at that index, for every input
including the empty one. -/
theorem C8_elementwise_map (now : Int) (data : List LivekitSession) :
    (processSessions now data).length = data.length
    ∧ ∀ i : Nat, (processSessions now data)[i]? =
        (data[i]?).map (fun session => normalizeSession now session) := by
  constructor
  · simp [processSessions]
  · intro i
    simp [processSessions]

/-- Claim C10: a numeric start_time equal to 0 is falsy, so the resolved
start instant comes from created_at; an end_time equal to 0 is falsy, so
the session is treated as ongoing: duration is Ongoing and the emitted
end instant is the substituted current instant. -/
theorem C10_zero_is_falsy (now : Int) (s t : LivekitSession)
    (h1 : s.start_time = Option.some 0) (h2 : t.end_time = Option.some 0) :
    (normalizeSession now s).startTime = s.created_at * 1000
    ∧ (normalizeSession now t).duration = "Ongoing"
    ∧ (normalizeSession now t).endTime = now := by
  refine ⟨?_, ?_, ?_⟩
  · simp only [normalizeSession, h1, truthyNum]
    rfl
  · simp only [normalizeSession, h2, truthyNum]
    rfl
  · simp only [normalizeSession, h2, truthyNum]
    rfl

/-- Claim C10, concrete instance: a session with created_at 1000 whose
start_time and end_time are both present but equal to 0. -/
theorem C10_witness :
    (normalizeSession 424242 sampleZeroTimes).startTime = 1000 * 1000
    ∧ (normalizeSession 424242 sampleZeroTimes).duration = "Ongoing"
    ∧ (normalizeSession 424242 sampleZeroTimes).endTime = 424242 :=
  C10_zero_is_falsy 424242 sampleZeroTimes sampleZeroTimes rfl rfl

/-- Claim C3 as stated is false on the code: not every failure path
carries a details string. The missing-credentials branch answers 500 with
an error body whose details field is absent, exhibited here at a GET
request with all three credentials unset. -/
theorem C3_counterexample :
    ¬ (∀ (method : String) (apiKey apiSecret projectId : Option String)
        (upstream : FetchOutcome),
      isFailureBody (sessionsHandler method apiKey apiSecret projectId upstream).body = true →
      is2xx (sessionsHandler method apiKey apiSecret projectId upstream).status = false
      ∧ hasDetails (sessionsHandler method apiKey apiSecret projectId upstream).body = true) := by
  intro hclaim
  have h := hclaim "GET" Option.none Option.none Option.none emptyOkOutcome (by decide)
  exact absurd h.2 (by decide)

/-- Claim C3 amended: every failure path of the handler produces a
non-2xx status, and on the paths reached with a GET request and all
credentials present (upstream HTTP failure, transport failure, decode
failure) the error body carries a details string; the missing-credentials
path alone answers with an error body lacking details. -/
theorem C3_failure_paths_amended (method : String)
    (apiKey apiSecret projectId : Option String) (upstream : FetchOutcome) :
    (isFailureBody (sessionsHandler method apiKey apiSecret projectId upstream).body = true →
      is2xx (sessionsHandler method apiKey apiSecret projectId upstream).status = false)
    ∧ (method = "GET" → truthyStr apiKey = true → truthyStr apiSecret = true →
        truthyStr projectId = true →
      isFailureBody (sessionsHandler method apiKey apiSecret projectId upstream).body = true →
      hasDetails (sessionsHandler method apiKey apiSecret projectId upstream).body = true) := by
  by_cases hm : method = "GET"
  · subst hm
    by_cases hk : truthyStr apiKey = true
    · by_cases hs2 : truthyStr apiSecret = true
      · by_cases hp : truthyStr projectId = true
        · cases upstream with
          | thrown message =>
            have hr : sessionsHandler "GET" apiKey apiSecret projectId
                (FetchOutcome.thrown message)
                = HandlerResponse.mk 500 (HandlerBody.apiError
                    "Internal server error." (Option.some message)) := by
              simp [sessionsHandler, hk, hs2, hp]
            rw [hr]
            exact ⟨fun _ => rfl, fun _ _ _ _ _ => rfl⟩
          | response status decoded =>
            by_cases hok : is2xx status = true
            · cases decoded with
              | ok data =>
                have hr : sessionsHandler "GET" apiKey apiSecret projectId
                    (FetchOutcome.response status (Except.ok data))
                    = HandlerResponse.mk 200 (HandlerBody.sessions data) := by
                  simp [sessionsHandler, hk, hs2, hp, hok]
                rw [hr]
                exact ⟨fun hfail => by simp [isFailureBody] at hfail,
                  fun _ _ _ _ hfail => by simp [isFailureBody] at hfail⟩
              | error message =>
                have hr : sessionsHandler "GET" apiKey apiSecret projectId
                    (FetchOutcome.response status (Except.error message))
                    = HandlerResponse.mk 500 (HandlerBody.apiError
                        "Internal server error." (Option.some message)) := by
                  simp [sessionsHandler, hk, hs2, hp, hok]
                rw [hr]
                exact ⟨fun _ => rfl, fun _ _ _ _ _ => rfl⟩
            · have hfalse : is2xx status = false := by
                revert hok
                cases is2xx status <;> simp
              have hr : sessionsHandler "GET" apiKey apiSecret projectId
                  (FetchOutcome.response status decoded)
                  = HandlerResponse.mk (if status ≠ 0 then status else 502)
                      (HandlerBody.apiError "Failed to fetch sessions from LiveKit."
                        (Option.some ("LiveKit API responded with status " ++ toString status
                          ++ ". Check server logs for more details."))) := by
                simp [sessionsHandler, hk, hs2, hp, hfalse]
              rw [hr]
              constructor
              · intro _
                by_cases h0 : status = 0
                · simp only [h0]
                  rfl
                · simp only [if_pos h0]
                  exact hfalse
              · intro _ _ _ _ _
                rfl
        · have hr : sessionsHandler "GET" apiKey apiSecret projectId upstream
              = HandlerResponse.mk 500 (HandlerBody.apiError
                  "Server configuration error: Missing LiveKit credentials." Option.none) := by
            simp [sessionsHandler, hp]
          rw [hr]
          exact ⟨fun _ => rfl, fun _ _ _ hp2 => absurd hp2 hp⟩
      · have hr : sessionsHandler "GET" apiKey apiSecret projectId upstream
            = HandlerResponse.mk 500 (HandlerBody.apiError
                "Server configuration error: Missing LiveKit credentials." Option.none) := by
          simp [sessionsHandler, hs2]
        rw [hr]
        exact ⟨fun _ => rfl, fun _ _ hs3 _ => absurd hs3 hs2⟩
    · have hr : sessionsHandler "GET" apiKey apiSecret projectId upstream
          = HandlerResponse.mk 500 (HandlerBody.apiError
              "Server configuration error: Missing LiveKit credentials." Option.none) := by
        simp [sessionsHandler, hk]
      rw [hr]
      exact ⟨fun _ => rfl, fun _ hk2 _ _ => absurd hk2 hk⟩
  · have hr : sessionsHandler method apiKey apiSecret projectId upstream
        = HandlerResponse.mk 405 (HandlerBody.apiError
            ("Method " ++ method ++ " Not Allowed") Option.none) := by
      simp [sessionsHandler, hm]
    rw [hr]
    exact ⟨fun _ => rfl, fun hm2 _ _ _ => absurd hm2 hm⟩

/-- Claim C3 amended, concrete instance: a GET request with credentials
present and an upstream 404 yields a non-2xx status and an error body
carrying a details string. -/
theorem C3_amended_witness :
    is2xx (sessionsHandler "GET" (Option.some "key") (Option.some "secret")
      (Option.some "proj") (FetchOutcome.response 404 (Except.ok { sessions := [] }))).status
      = false
    ∧ hasDetails (sessionsHandler "GET" (Option.some "key") (Option.some "secret")
      (Option.some "proj") (FetchOutcome.response 404 (Except.ok { sessions := [] }))).body
      = true :=
  ⟨(C3_failure_paths_amended "GET" (Option.some "key") (Option.some "secret")
      (Option.some "proj") (FetchOutcome.response 404 (Except.ok { sessions := [] }))).1
    (by decide),
   (C3_failure_paths_amended "GET" (Option.some "key") (Option.some "secret")
      (Option.some "proj") (FetchOutcome.response 404 (Except.ok { sessions := [] }))).2
    rfl (by decide) (by decide) (by decide) (by decide)⟩

/-- Claim C4: when the upstream response has a non-2xx status and a GET
request arrives with all credentials present, the handler propagates that
same status code, or 502 when the upstream status is the invalid value 0,
and its body is never the sessions payload, empty or otherwise. -/
theorem C4_upstream_status_propagation (apiKey apiSecret projectId : Option String)
    (status : Nat) (decoded : Except String SessionsApiResponse)
    (hk : truthyStr apiKey = true) (hs2 : truthyStr apiSecret = true)
    (hp : truthyStr projectId = true) (hnok : is2xx status = false) :
    (sessionsHandler "GET" apiKey apiSecret projectId
      (FetchOutcome.response status decoded)).status
      = (if status ≠ 0 then status else 502)
    ∧ ∀ data, (sessionsHandler "GET" apiKey apiSecret projectId
        (FetchOutcome.response status decoded)).body ≠ HandlerBody.sessions data := by
  have hr : sessionsHandler "GET" apiKey apiSecret projectId
      (FetchOutcome.response status decoded)
      = HandlerResponse.mk (if status ≠ 0 then status else 502)
          (HandlerBody.apiError "Failed to fetch sessions from LiveKit."
            (Option.some ("LiveKit API responded with status " ++ toString status
              ++ ". Check server logs for more details."))) := by
    simp [sessionsHandler, hk, hs2, hp, hnok]
  rw [hr]
  exact ⟨rfl, fun data h => by simp at h⟩

/-- Claim C4, concrete instances: an upstream 404 propagates as 404, an
upstream 500 propagates as 500, and the invalid upstream status 0
propagates as 502. -/
theorem C4_witness :
    (sessionsHandler "GET" (Option.some "key") (Option.some "secret") (Option.some "proj")
      (FetchOutcome.response 404 (Except.ok { sessions := [] }))).status = 404
    ∧ (sessionsHandler "GET" (Option.some "key") (Option.some "secret") (Option.some "proj")
      (FetchOutcome.response 500 (Except.ok { sessions := [] }))).status = 500
    ∧ (sessionsHandler "GET" (Option.some "key") (Option.some "secret") (Option.some "proj")
      (FetchOutcome.response 0 (Except.ok { sessions := [] }))).status = 502 :=
  ⟨((C4_upstream_status_propagation (Option.some "key") (Option.some "secret")
      (Option.some "proj") 404 (Except.ok { sessions := [] })
      (by decide) (by decide) (by decide) (by decide)).1).trans (by decide),
   ((C4_upstream_status_propagation (Option.some "key") (Option.some "secret")
      (Option.some "proj") 500 (Except.ok { sessions := [] })
      (by decide) (by decide) (by decide) (by decide)).1).trans (by decide),
   ((C4_upstream_status_propagation (Option.some "key") (Option.some "secret")
      (Option.some "proj") 0 (Except.ok { sessions := [] })
      (by decide) (by decide) (by decide) (by decide)).1).trans (by decide)⟩

end CallHistory
